import Mathlib

/-!
Verification development for the tracing/APM backend's
ingestion → counting → alerting → streaming core.

Shallow embedding of the Python services:
  - `app/services/alert_counters.py`   (Redis sliding-window counters, cooldown tokens)
  - `app/services/alert_evaluator.py`  (alert evaluation, fire/resolve state machine)
  - `app/services/ingest_service.py`   (OTLP ingestion orchestration)
  - `app/utils/otlp.py`                (OTLP decoding and row mapping)
  - `app/services/stream_manager.py`   (bounded-queue SSE connection manager)
  - `app/services/notifications/dispatcher.py` (multi-channel notification dispatch)

Modelling conventions:
  - Python floats are modelled by `Rat` (the numeric claims concern exact
    comparison semantics, not floating-point rounding).
  - The external Redis cache is an explicit `Redis` state; a raised exception
    from any backend call is modelled by `Redis.ok = false` (every try/except
    block in the source catches all exceptions from the backend).
  - The Postgres alert-event table is an explicit list of `AlertEvent` rows.
  - ClickHouse query outcomes are inputs (`ChOutcome`): the query may raise,
    return no rows, or return one row whose cells may be NULL (`Option`).
  - Async side effects (batch insert, counter-update task, SSE broadcast) are
    recorded in an explicit effect trace.
-/

namespace Tracely

/-! ## alert_counters.py — Redis-backed sliding-window counters and cooldowns -/

/-- Counter TTL in seconds (`COUNTER_TTL = 600`). -/
def COUNTER_TTL : Nat := 600

/-- Cooldown TTL in seconds (`COOLDOWN_TTL = 300`). -/
def COOLDOWN_TTL : Int := 300

/-- State of the external Redis cache, together with a failure flag:
`ok = false` models the backend raising an exception on every call
(the situation each `try/except` block in `alert_counters.py` guards
against).  `kv` holds the integer counter keys, `cd` the cooldown keys
with their remaining TTLs, and `nowMinute` is the current minute epoch
returned by `_get_minute_key`.  Key TTL expiry for counters is driven by
the passage of time, which the per-call claims do not exercise, so
`expire` calls do not change the modelled state. -/
structure Redis where
  ok : Bool
  kv : List (String × Int)
  cd : List (String × Int)
  nowMinute : Int
deriving Repr, DecidableEq

/-- Key pattern for a counter (`_counter_key`). -/
def counter_key (project_id : String) (metric : String) (minute : Int) : String :=
  "alert:counter:" ++ project_id ++ ":" ++ metric ++ ":" ++ toString minute

/-- Key pattern for a cooldown token (`_cooldown_key`). -/
def cooldown_key (rule_id : String) : String :=
  "alert:cooldown:" ++ rule_id

/-- Overwrite a key in an association list (Redis `SET`/`SETEX` semantics). -/
def kvSet (l : List (String × Int)) (k : String) (v : Int) : List (String × Int) :=
  (k, v) :: l.filter (fun p => p.1 ≠ k)

/-- Remove a key from an association list (Redis `DEL` semantics). -/
def kvDel (l : List (String × Int)) (k : String) : List (String × Int) :=
  l.filter (fun p => p.1 ≠ k)

/-- Model of `increment_error_count`: `INCR` + `EXPIRE` on the current-minute
error bucket; on a backend exception it logs and returns 0, leaving the
store untouched.  Returns the new counter value and the new cache state. -/
def increment_error_count (r : Redis) (project_id : String) : Int × Redis :=
  if r.ok then
    let key := counter_key project_id "errors" r.nowMinute
    let v := ((r.kv.lookup key).getD 0) + 1
    (v, { r with kv := kvSet r.kv key v })
  else
    (0, r)

/-- Model of `increment_request_count`: same as the error counter but for the
request bucket. -/
def increment_request_count (r : Redis) (project_id : String) : Int × Redis :=
  if r.ok then
    let key := counter_key project_id "requests" r.nowMinute
    let v := ((r.kv.lookup key).getD 0) + 1
    (v, { r with kv := kvSet r.kv key v })
  else
    (0, r)

/-- Model of `get_error_count`: `MGET` over the last `window_minutes` buckets
(current minute and the `window_minutes - 1` prior), summing present values
and treating missing buckets as zero; a backend exception yields 0. -/
def get_error_count (r : Redis) (project_id : String) (window_minutes : Nat) : Int :=
  if r.ok then
    ((List.range window_minutes).map
      (fun i => (r.kv.lookup (counter_key project_id "errors" (r.nowMinute - i))).getD 0)).sum
  else
    0

/-- Model of `get_request_count`: as `get_error_count` but for request buckets. -/
def get_request_count (r : Redis) (project_id : String) (window_minutes : Nat) : Int :=
  if r.ok then
    ((List.range window_minutes).map
      (fun i => (r.kv.lookup (counter_key project_id "requests" (r.nowMinute - i))).getD 0)).sum
  else
    0

/-- Model of `get_error_rate`: `100 * errors / requests` over the window, or
`0.0` when the windowed request count is zero. -/
def get_error_rate (r : Redis) (project_id : String) (window_minutes : Nat) : Rat :=
  let error_count := get_error_count r project_id window_minutes
  let request_count := get_request_count r project_id window_minutes
  if request_count = 0 then 0
  else ((error_count : Rat) / (request_count : Rat)) * 100

/-- Model of `is_in_cooldown`: `EXISTS` on the cooldown key; a backend
exception yields `false`. -/
def is_in_cooldown (r : Redis) (rule_id : String) : Bool :=
  if r.ok then (r.cd.lookup (cooldown_key rule_id)).isSome
  else false

/-- Model of `set_cooldown`: `SETEX` of the cooldown key; returns whether the
call succeeded together with the new cache state. -/
def set_cooldown (r : Redis) (rule_id : String) (ttl_seconds : Int) : Bool × Redis :=
  if r.ok then
    (true, { r with cd := kvSet r.cd (cooldown_key rule_id) ttl_seconds })
  else
    (false, r)

/-- Model of `clear_cooldown`: `DEL` of the cooldown key; returns whether the
call succeeded together with the new cache state. -/
def clear_cooldown (r : Redis) (rule_id : String) : Bool × Redis :=
  if r.ok then
    (true, { r with cd := kvDel r.cd (cooldown_key rule_id) })
  else
    (false, r)

/-- Model of `get_cooldown_remaining`: `TTL` of the cooldown key (`-2` when
the key is absent, as in Redis), clamped below by 0; a backend exception
yields 0. -/
def get_cooldown_remaining (r : Redis) (rule_id : String) : Int :=
  if r.ok then max 0 ((r.cd.lookup (cooldown_key rule_id)).getD (-2))
  else 0

/-! ## alert_evaluator.py — evaluation functions -/

/-- Default cooldown period in seconds (`DEFAULT_COOLDOWN_SECONDS = 300`). -/
def DEFAULT_COOLDOWN_SECONDS : Int := 300

/-- Result of evaluating an alert condition (`EvaluationResult` dataclass). -/
structure EvaluationResult where
  is_triggered : Bool
  metric_value : Rat
  threshold_value : Rat
deriving Repr, DecidableEq

/-- Model of `evaluate_high_error_rate`: windowed error rate from the Redis
counters, triggered when strictly above the threshold (`>`). -/
def evaluate_high_error_rate (r : Redis) (project_id : String)
    (threshold : Rat) (duration_seconds : Nat) : EvaluationResult :=
  let window_minutes := max 1 (duration_seconds / 60)
  let error_rate := get_error_rate r project_id window_minutes
  { is_triggered := decide (error_rate > threshold)
    metric_value := error_rate
    threshold_value := threshold }

/-- Model of `evaluate_service_down`: windowed request count from the Redis
counters, triggered when it equals the threshold (normally 0). -/
def evaluate_service_down (r : Redis) (project_id : String)
    (threshold : Rat) (duration_seconds : Nat) : EvaluationResult :=
  let window_minutes := max 1 (duration_seconds / 60)
  let request_count := get_request_count r project_id window_minutes
  { is_triggered := decide ((request_count : Rat) = threshold)
    metric_value := (request_count : Rat)
    threshold_value := threshold }

/-- Outcome of a ClickHouse query from the evaluator's point of view: the
query may raise (`err`, caught and logged by the source), return no rows
(`noRows`), or return a single row `row a` whose cells may be NULL. -/
inductive ChOutcome (α : Type) where
  | err : ChOutcome α
  | noRows : ChOutcome α
  | row : α → ChOutcome α
deriving Repr, DecidableEq

/-- Model of `evaluate_slow_responses`: current-window P95 from `metrics_1m`
(0.0 on error, no rows, or NULL), triggered when strictly above the
threshold. -/
def evaluate_slow_responses (ch : ChOutcome (Option Rat))
    (threshold : Rat) : EvaluationResult :=
  let p95 : Rat :=
    match ch with
    | .err => 0
    | .noRows => 0
    | .row c => c.getD 0
  { is_triggered := decide (p95 > threshold)
    metric_value := p95
    threshold_value := threshold }

/-- Model of `evaluate_latency_spike`: the query returns the current-window
P95 and the previous-hour P95 (each possibly NULL); percentage increase is 0
when the previous P95 is not positive, and the alert is triggered when the
increase is `>=` the threshold. -/
def evaluate_latency_spike (ch : ChOutcome (Option Rat × Option Rat))
    (threshold : Rat) : EvaluationResult :=
  let current_p95 : Rat :=
    match ch with
    | .err => 0
    | .noRows => 0
    | .row cp => cp.1.getD 0
  let previous_p95 : Rat :=
    match ch with
    | .err => 0
    | .noRows => 0
    | .row cp => cp.2.getD 0
  let pct_increase : Rat :=
    if previous_p95 > 0 then ((current_p95 - previous_p95) / previous_p95) * 100
    else 0
  { is_triggered := decide (pct_increase ≥ threshold)
    metric_value := pct_increase
    threshold_value := threshold }

/-- Model of `_evaluate_volume_change`: the query returns the current-window
and previous-hour request counts (possibly NULL); percentage change is 0 when
the previous count is not positive.  For a drop, trigger on a negative change
whose magnitude is `>=` the threshold; for a surge, on a positive change
`>=` the threshold. -/
def evaluate_volume_change (ch : ChOutcome (Option Int × Option Int))
    (threshold : Rat) (is_drop : Bool) : EvaluationResult :=
  let current_count : Int :=
    match ch with
    | .err => 0
    | .noRows => 0
    | .row cp => cp.1.getD 0
  let previous_count : Int :=
    match ch with
    | .err => 0
    | .noRows => 0
    | .row cp => cp.2.getD 0
  let pct_change : Rat :=
    if previous_count > 0 then
      (((current_count : Rat) - (previous_count : Rat)) / (previous_count : Rat)) * 100
    else 0
  if is_drop then
    { is_triggered := decide (pct_change < 0) && decide (|pct_change| ≥ threshold)
      metric_value := if pct_change < 0 then |pct_change| else 0
      threshold_value := threshold }
  else
    { is_triggered := decide (pct_change > 0) && decide (pct_change ≥ threshold)
      metric_value := if pct_change > 0 then pct_change else 0
      threshold_value := threshold }

/-- Model of `evaluate_traffic_drop`. -/
def evaluate_traffic_drop (ch : ChOutcome (Option Int × Option Int))
    (threshold : Rat) : EvaluationResult :=
  evaluate_volume_change ch threshold true

/-- Model of `evaluate_traffic_surge`. -/
def evaluate_traffic_surge (ch : ChOutcome (Option Int × Option Int))
    (threshold : Rat) : EvaluationResult :=
  evaluate_volume_change ch threshold false

/-! ## alert_evaluator.py — fire/resolve state machine over alert events -/

/-- Alert rule configuration (`AlertRule` model, consumed read-only). -/
structure AlertRule where
  id : String
  org_id : String
  project_id : String
  preset_key : String
  name : String
  category : String
  description : String
  threshold_value : Rat
  duration_seconds : Nat
  comparison_operator : String
  is_active : Bool
  is_custom : Bool
deriving Repr, DecidableEq

/-- Snapshot of a rule's configuration, as built by
`alert_service.create_alert_event` for the `rule_snapshot` JSONB column. -/
structure RuleSnapshot where
  id : String
  preset_key : String
  name : String
  category : String
  description : String
  threshold_value : Rat
  duration_seconds : Nat
  comparison_operator : String
  is_custom : Bool
deriving Repr, DecidableEq

/-- Build the rule snapshot dict exactly as `create_alert_event` does. -/
def build_rule_snapshot (rule : AlertRule) : RuleSnapshot :=
  { id := rule.id
    preset_key := rule.preset_key
    name := rule.name
    category := rule.category
    description := rule.description
    threshold_value := rule.threshold_value
    duration_seconds := rule.duration_seconds
    comparison_operator := rule.comparison_operator
    is_custom := rule.is_custom }

/-- An `alert_events` row.  `rule_snapshot` mirrors the nullable JSONB column
added by migration `f6a7b8c9d0e1`; a row created without it has NULL
(`none`). -/
structure AlertEvent where
  id : Nat
  rule_id : String
  org_id : String
  project_id : String
  triggered_at : Int
  resolved_at : Option Int
  metric_value : Rat
  threshold_value : Rat
  status : String
  cooldown_until : Option Int
  notification_sent : Bool
  rule_snapshot : Option RuleSnapshot
deriving Repr, DecidableEq

/-- The alert-events table: the rows plus the next fresh primary key. -/
structure Db where
  events : List AlertEvent
  nextId : Nat
deriving Repr, DecidableEq

/-- Whether a row matches the open-event query filter used by both
`fire_alert` and `resolve_alert`: same rule, status `triggered` or
`active`. -/
def isOpenFor (rule_id : String) (e : AlertEvent) : Bool :=
  e.rule_id == rule_id && (e.status == "triggered" || e.status == "active")

/-- The query `SELECT ... WHERE rule_id = ? AND status IN ('triggered',
'active') ORDER BY triggered_at DESC LIMIT 1`: the matching row with the
greatest `triggered_at`. -/
def select_open_event (events : List AlertEvent) (rule_id : String) :
    Option AlertEvent :=
  (events.filter (isOpenFor rule_id)).foldl
    (fun acc e =>
      match acc with
      | none => some e
      | some b => if e.triggered_at > b.triggered_at then some e else some b)
    none

/-- Replace the row with the given primary key (an in-place ORM update
followed by commit). -/
def updateEvent (events : List AlertEvent) (updated : AlertEvent) :
    List AlertEvent :=
  events.map (fun e => if e.id == updated.id then updated else e)

/-- Model of `fire_alert`.  If the rule is in cooldown, the most recent open
event (if any) is updated in place to status `active` with the latest
metric value, and no row is inserted.  Otherwise a fresh row is inserted
with status `triggered`, `cooldown_until = now + 300`,
`notification_sent = False` and no rule snapshot, and the Redis cooldown is
set.  Returns the created/updated event (or `none`), the new table state
and the new cache state. -/
def fire_alert (redis : Redis) (db : Db) (rule : AlertRule)
    (result : EvaluationResult) (now : Int) :
    Option AlertEvent × Db × Redis :=
  if is_in_cooldown redis rule.id then
    match select_open_event db.events rule.id with
    | some event =>
      let updated := { event with status := "active", metric_value := result.metric_value }
      (some updated, { db with events := updateEvent db.events updated }, redis)
    | none => (none, db, redis)
  else
    let event : AlertEvent :=
      { id := db.nextId
        rule_id := rule.id
        org_id := rule.org_id
        project_id := rule.project_id
        triggered_at := now
        resolved_at := none
        metric_value := result.metric_value
        threshold_value := result.threshold_value
        status := "triggered"
        cooldown_until := some (now + DEFAULT_COOLDOWN_SECONDS)
        notification_sent := false
        rule_snapshot := none }
    let redis2 := (set_cooldown redis rule.id DEFAULT_COOLDOWN_SECONDS).2
    (some event, { events := db.events ++ [event], nextId := db.nextId + 1 }, redis2)

/-- Model of `resolve_alert`.  The most recent open event for the rule (if
any) is set to status `resolved` with `resolved_at = now`, and the Redis
cooldown token is cleared; with no open event nothing changes and `none` is
returned. -/
def resolve_alert (redis : Redis) (db : Db) (rule : AlertRule) (now : Int) :
    Option AlertEvent × Db × Redis :=
  match select_open_event db.events rule.id with
  | some event =>
    let updated := { event with status := "resolved", resolved_at := some now }
    let redis2 := (clear_cooldown redis rule.id).2
    (some updated, { db with events := updateEvent db.events updated }, redis2)
  | none => (none, db, redis)

/-- Model of `alert_service.create_alert_event` (the management-path event
creator): inserts a row with status `active` and the rule snapshot
populated. -/
def create_alert_event (db : Db) (rule : AlertRule) (metric_value : Rat)
    (now : Int) : AlertEvent × Db :=
  let event : AlertEvent :=
    { id := db.nextId
      rule_id := rule.id
      org_id := rule.org_id
      project_id := rule.project_id
      triggered_at := now
      resolved_at := none
      metric_value := metric_value
      threshold_value := rule.threshold_value
      status := "active"
      cooldown_until := none
      notification_sent := false
      rule_snapshot := some (build_rule_snapshot rule) }
  (event, { events := db.events ++ [event], nextId := db.nextId + 1 })

/-- Repeated `fire_alert` calls (as issued by successive evaluation cycles),
threading the table and cache state; each call carries its evaluation
result and wall-clock time.  The returned events are discarded, as in the
scheduler loop. -/
def fire_many (redis : Redis) (db : Db) (rule : AlertRule)
    (calls : List (EvaluationResult × Int)) : Db × Redis :=
  calls.foldl
    (fun s c =>
      let r := fire_alert s.2 s.1 rule c.1 c.2
      (r.2.1, r.2.2))
    (db, redis)

/-- The open event left by a run of in-cooldown `fire_alert` calls: each call
overwrites the status with `active` and the metric value with that call's
evaluation result. -/
def finalOpenEvent (ev : AlertEvent) (calls : List (EvaluationResult × Int)) :
    AlertEvent :=
  calls.foldl
    (fun e c => { e with status := "active", metric_value := c.1.metric_value })
    ev

/-! ## stream_manager.py — bounded-queue SSE connection manager -/

/-- Queue capacity (`QUEUE_MAX_SIZE = 256`). -/
def QUEUE_MAX_SIZE : Nat := 256

/-- An SSE event, a `dict[str, str]` in the source. -/
abbrev SseEvent : Type := List (String × String)

/-- A subscriber's bounded `asyncio.Queue`, oldest event first
(`put_nowait` appends at the tail, the consumer pops the head). -/
abbrev SseQueue : Type := List SseEvent

/-- The manager's `_channels` registry: project id → queues of the
subscribers connected to that project. -/
abbrev CMState : Type := List (String × List SseQueue)

/-- The effect of `put_nowait` on one bounded queue: append when below
capacity, otherwise `QueueFull` is caught and the event is dropped for that
queue alone. -/
def put_nowait_or_drop (event : SseEvent) (q : SseQueue) : SseQueue :=
  if q.length < QUEUE_MAX_SIZE then q ++ [event] else q

/-- Model of `ConnectionManager.broadcast`: look up the project's channel;
with no channel (or an empty one) return the state unchanged; otherwise
apply `put_nowait_or_drop` to every queue of that project.  The function is
total: no branch blocks or raises. -/
def broadcast (cm : CMState) (project_id : String) (event : SseEvent) :
    CMState :=
  match cm.lookup project_id with
  | none => cm
  | some channel =>
    if channel.isEmpty then cm
    else cm.map (fun p =>
      if p.1 == project_id then (p.1, p.2.map (put_nowait_or_drop event))
      else p)

/-- Model of `ConnectionManager.connection_count`. -/
def connection_count (cm : CMState) (project_id : String) : Nat :=
  match cm.lookup project_id with
  | none => 0
  | some channel => channel.length

/-- Model of `ConnectionManager.connect`: register a fresh empty bounded
queue under the project. -/
def connect (cm : CMState) (project_id : String) : CMState :=
  match cm.lookup project_id with
  | none => (project_id, [([] : SseQueue)]) :: cm
  | some channel =>
    cm.map (fun p =>
      if p.1 == project_id then (p.1, ([] : SseQueue) :: channel) else p)

/-! ## notifications/dispatcher.py — multi-channel dispatch with retry -/

/-- Retry delay in seconds (`RETRY_DELAY_SECONDS = 30`). -/
def RETRY_DELAY_SECONDS : Nat := 30

/-- Result of one notification dispatch attempt (`DispatchResult`
dataclass; `retried` defaults to `False`). -/
structure DispatchResult where
  channel_type : String
  success : Bool
  error : Option String := none
  retried : Bool := false
deriving Repr, DecidableEq

/-- Model of `_dispatch_with_retry`: run the dispatch function once; on
failure, sleep the fixed delay, run the same function a second time and
mark that result as retried.  The two attempts' outcomes are the inputs
`first` and `retry` (the channel adapters perform network I/O, so each
invocation's outcome is an input to the model). -/
def dispatch_with_retry (first retry : DispatchResult) : DispatchResult :=
  if first.success then first
  else { retry with retried := true }

/-- Number of times `_dispatch_with_retry` invokes the dispatch function:
once on first-attempt success, twice otherwise. -/
def dispatch_attempt_count (first : DispatchResult) : Nat :=
  if first.success then 1 else 2

/-- One configured channel on the dispatch path, with the outcomes its two
possible dispatch-function invocations would produce. -/
structure ChannelDispatch where
  channel_type : String
  first : DispatchResult
  retry : DispatchResult
deriving Repr, DecidableEq

/-- Model of `dispatch_alert_notification`: always dispatch email (with
retry), dispatch every configured `slack`/`discord` channel (with retry,
all tasks independent), gather the results, and set
`event.notification_sent` to whether the number of successful final results
is positive. -/
def dispatch_alert_notification (event : AlertEvent)
    (email : DispatchResult × DispatchResult)
    (channels : List ChannelDispatch) :
    List DispatchResult × AlertEvent :=
  let results :=
    dispatch_with_retry email.1 email.2 ::
      channels.filterMap (fun c =>
        if c.channel_type == "slack" || c.channel_type == "discord" then
          some (dispatch_with_retry c.first c.retry)
        else none)
  let successful := (results.filter (fun r => r.success)).length
  (results, { event with notification_sent := successful > 0 })

/-! ## utils/otlp.py — OTLP decoding and row mapping

The protobuf wire decoding (`parse_otlp_request`) and the `AnyValue`
stringification (`_anyvalue_to_str` / `_extract_attributes`) form the
binary-format boundary of the model: the embedding starts from the parsed
request with attribute values already in their string form. -/

/-- `SPAN_KIND_MAP`: OTLP span kind → store enum string. -/
def SPAN_KIND_MAP : List (Nat × String) :=
  [(0, "INTERNAL"), (1, "INTERNAL"), (2, "SERVER"), (3, "CLIENT"),
   (4, "PRODUCER"), (5, "CONSUMER")]

/-- `STATUS_CODE_MAP`: OTLP status code → store enum string. -/
def STATUS_CODE_MAP : List (Nat × String) :=
  [(0, "UNSET"), (1, "OK"), (2, "ERROR")]

/-- Model of `_nanos_to_datetime`: the stored timestamp, as seconds since
the epoch; a zero nanosecond timestamp maps to the epoch itself. -/
def nanos_to_datetime (nanos : Int) : Rat :=
  if nanos = 0 then 0 else (nanos : Rat) / 1000000000

/-- Model of `_nanos_to_duration_ms`: duration in milliseconds, 0 when
either timestamp is zero. -/
def nanos_to_duration_ms (start_nanos end_nanos : Int) : Rat :=
  if end_nanos = 0 ∨ start_nanos = 0 then 0
  else ((end_nanos : Rat) - (start_nanos : Rat)) / 1000000

/-- Model of `_get_attr`: dictionary lookup with a default. -/
def get_attr (attrs : List (String × String)) (key : String)
    (default : String := "") : String :=
  (attrs.lookup key).getD default

/-- Python's `a or b` on strings: `b` when `a` is empty. -/
def orElseStr (a b : String) : String :=
  if a = "" then b else a

/-- A span status (`status.code`, `status.message`). -/
structure OtlpStatus where
  code : Nat
  message : String
deriving Repr, DecidableEq

/-- A span event (`events[i]`), with its attributes in string form. -/
structure OtlpEvent where
  time_unix_nano : Int
  name : String
  attributes : List (String × String)
deriving Repr, DecidableEq

/-- A parsed OTLP span, with its attributes in string form.  `trace_id`,
`span_id` and `parent_span_id` carry the hex form of the wire bytes
(`_bytes_to_hex`); an absent parent is the empty string. -/
structure OtlpSpan where
  trace_id : String
  span_id : String
  parent_span_id : String
  name : String
  kind : Nat
  start_time_unix_nano : Int
  end_time_unix_nano : Int
  status : OtlpStatus
  attributes : List (String × String)
  events : List OtlpEvent
deriving Repr, DecidableEq

/-- A `scope_spans` entry. -/
structure ScopeSpans where
  spans : List OtlpSpan
deriving Repr, DecidableEq

/-- A `resource_spans` entry with its resource attributes in string form. -/
structure ResourceSpans where
  resource_attributes : List (String × String)
  scope_spans : List ScopeSpans
deriving Repr, DecidableEq

/-- A parsed `ExportTraceServiceRequest`. -/
structure ExportTraceServiceRequest where
  resource_spans : List ResourceSpans
deriving Repr, DecidableEq

/-- The `total_spans` sum computed at the top of `extract_spans`. -/
def total_span_count (request : ExportTraceServiceRequest) : Nat :=
  (request.resource_spans.map
    (fun rs => (rs.scope_spans.map (fun ss => ss.spans.length)).sum)).sum

/-- A minimal rendering of `json.dumps` on a string-to-string dict, used
where the source serializes reassembled headers and span events; the claims
never inspect the serialized text. -/
def json_dumps_obj (pairs : List (String × String)) : String :=
  "\x7b" ++ String.intercalate ", "
    (pairs.map (fun p => "\"" ++ p.1 ++ "\": \"" ++ p.2 ++ "\"")) ++ "\x7d"

/-- A minimal rendering of `json.dumps` on a list of objects. -/
def json_dumps_list (items : List String) : String :=
  "[" ++ String.intercalate ", " items ++ "]"

/-- One row of the `spans` fact table, as built by `extract_spans`.
`start_time`/`end_time` are store timestamps in seconds (`Rat`),
`attributes` is the residual attribute dict. -/
structure SpanRow where
  org_id : String
  project_id : String
  trace_id : String
  span_id : String
  parent_span_id : String
  span_name : String
  span_type : String
  service_name : String
  framework : String
  environment : String
  kind : String
  start_time : Rat
  end_time : Rat
  duration_ms : Rat
  status_code : String
  status_message : String
  http_method : String
  http_route : String
  http_status_code : Int
  request_body : String
  response_body : String
  request_headers : String
  response_headers : String
  attributes : List (String × String)
  row_size_bytes : Nat
deriving Repr, DecidableEq

/-- The prefix of per-header OTEL request-header attributes. -/
def REQ_HEADER_PREFIX : String := "http.request.header."

/-- The prefix of per-header OTEL response-header attributes. -/
def RESP_HEADER_PREFIX : String := "http.response.header."

/-- Keys promoted to dedicated columns (`_extracted_keys` in the source). -/
def extracted_keys : List String :=
  ["tracely.request.body", "http.request.body",
   "tracely.response.body", "http.response.body",
   "tracely.request.headers", "http.request.headers",
   "tracely.response.headers", "http.response.headers"]

/-- Reassemble a JSON header object from per-header attributes with the
given prefix (the dict comprehension with `removeprefix`). -/
def headers_from_attrs (span_attrs : List (String × String))
    (pre : String) : List (String × String) :=
  (span_attrs.filter (fun kv => kv.1.startsWith pre)).map
    (fun kv => (kv.1.drop pre.length, kv.2))

/-- Whether Python's `int(s)`-guarding `s.isdigit()` holds. -/
def isDigits (s : String) : Bool :=
  s ≠ "" && s.all (fun c => c.isDigit)

/-- One span event serialized to its `event_record`, including the promoted
exception fields for `exception` events (the record is stored as JSON; its
exact text is irrelevant to the claims). -/
def event_record_json (event : OtlpEvent) : String :=
  let event_attrs := event.attributes
  let base : List (String × String) :=
    [("timestamp", toString (nanos_to_datetime event.time_unix_nano)),
     ("name", event.name),
     ("level", get_attr event_attrs "level" "info"),
     ("message", get_attr event_attrs "message" event.name)]
  let full :=
    if event.name == "exception" then
      base ++ [("exception.type", get_attr event_attrs "exception.type"),
               ("exception.message", get_attr event_attrs "exception.message")]
    else base
  json_dumps_obj full

/-- The exception attributes promoted from an `exception` event into the
span-level attribute dict (the inner `for exc_key in ...` loop): each
non-empty value is added unless the key is already present. -/
def promote_exception_attrs (general_attrs : List (String × String))
    (event : OtlpEvent) : List (String × String) :=
  if event.name == "exception" then
    ["exception.type", "exception.message", "exception.stacktrace"].foldl
      (fun acc exc_key =>
        let val := get_attr event.attributes exc_key
        if val ≠ "" ∧ (acc.lookup exc_key).isNone then acc ++ [(exc_key, val)]
        else acc)
      general_attrs
  else general_attrs

/-- Bridge legacy `error.*` attributes to `exception.*` when the latter are
absent (the RC3 block at the end of the loop body). -/
def bridge_error_attrs (general_attrs : List (String × String)) :
    List (String × String) :=
  let ga1 :=
    if (general_attrs.lookup "exception.type").isNone then
      let err_type := (general_attrs.lookup "error.type").getD ""
      if err_type ≠ "" then general_attrs ++ [("exception.type", err_type)]
      else general_attrs
    else general_attrs
  if (ga1.lookup "exception.message").isNone then
    let err_msg := (ga1.lookup "error.message").getD ""
    if err_msg ≠ "" then ga1 ++ [("exception.message", err_msg)]
    else ga1
  else ga1

/-- The loop body of `extract_spans`: build one `SpanRow` from a span, the
enclosing resource's attributes, and the per-span byte share. -/
def build_span_row (org_id project_id : String)
    (resource_attrs : List (String × String)) (per_span_bytes : Nat)
    (otlp_span : OtlpSpan) : SpanRow :=
  let service_name := get_attr resource_attrs "service.name" "unknown"
  let framework := get_attr resource_attrs "tracely.framework"
  let environment := get_attr resource_attrs "tracely.environment"
  let span_attrs := otlp_span.attributes
  let span_type_raw := get_attr span_attrs "tracely.span_type" "span"
  let span_type_str :=
    if span_type_raw = "span" ∨ span_type_raw = "pending_span" ∨ span_type_raw = "log"
    then span_type_raw else "span"
  let kind_str := (SPAN_KIND_MAP.lookup otlp_span.kind).getD "INTERNAL"
  let status_code_str := (STATUS_CODE_MAP.lookup otlp_span.status.code).getD "UNSET"
  let http_method :=
    orElseStr (get_attr span_attrs "http.request.method") (get_attr span_attrs "http.method")
  let http_route := get_attr span_attrs "http.route"
  let http_status_str :=
    orElseStr (get_attr span_attrs "http.response.status_code")
      (get_attr span_attrs "http.status_code")
  let http_status_code : Int :=
    if isDigits http_status_str then (http_status_str.toNat! : Int) else 0
  let request_body :=
    orElseStr (get_attr span_attrs "tracely.request.body")
      (get_attr span_attrs "http.request.body")
  let response_body :=
    orElseStr (get_attr span_attrs "tracely.response.body")
      (get_attr span_attrs "http.response.body")
  let request_headers0 :=
    orElseStr (get_attr span_attrs "tracely.request.headers")
      (get_attr span_attrs "http.request.headers")
  let response_headers0 :=
    orElseStr (get_attr span_attrs "tracely.response.headers")
      (get_attr span_attrs "http.response.headers")
  let request_headers :=
    if request_headers0 = "" then
      let req_hdr := headers_from_attrs span_attrs REQ_HEADER_PREFIX
      if req_hdr ≠ [] then json_dumps_obj req_hdr else request_headers0
    else request_headers0
  let response_headers :=
    if response_headers0 = "" then
      let resp_hdr := headers_from_attrs span_attrs RESP_HEADER_PREFIX
      if resp_hdr ≠ [] then json_dumps_obj resp_hdr else response_headers0
    else response_headers0
  let general_attrs0 := span_attrs.filter (fun kv =>
    ¬ kv.1.startsWith "tracely." ∧ kv.1 ∉ extracted_keys ∧
    ¬ kv.1.startsWith REQ_HEADER_PREFIX ∧ ¬ kv.1.startsWith RESP_HEADER_PREFIX)
  let general_attrs1 :=
    if otlp_span.events ≠ [] then
      let with_exc := otlp_span.events.foldl promote_exception_attrs general_attrs0
      with_exc ++
        [("span.events", json_dumps_list (otlp_span.events.map event_record_json))]
    else general_attrs0
  let general_attrs := bridge_error_attrs general_attrs1
  { org_id := org_id
    project_id := project_id
    trace_id := otlp_span.trace_id
    span_id := otlp_span.span_id
    parent_span_id := otlp_span.parent_span_id
    span_name := otlp_span.name
    span_type := span_type_str
    service_name := service_name
    framework := framework
    environment := environment
    kind := kind_str
    start_time := nanos_to_datetime otlp_span.start_time_unix_nano
    end_time := nanos_to_datetime otlp_span.end_time_unix_nano
    duration_ms := nanos_to_duration_ms otlp_span.start_time_unix_nano
      otlp_span.end_time_unix_nano
    status_code := status_code_str
    status_message := otlp_span.status.message
    http_method := http_method
    http_route := http_route
    http_status_code := http_status_code
    request_body := request_body
    response_body := response_body
    request_headers := request_headers
    response_headers := response_headers
    attributes := general_attrs
    row_size_bytes := per_span_bytes }

/-- Model of `extract_spans`: compute the even byte share
`payload_size // max(total_spans, 1)` and build one row per span of the
nested request, in order. -/
def extract_spans (request : ExportTraceServiceRequest)
    (org_id project_id : String) (payload_size : Nat) : List SpanRow :=
  let total_spans := total_span_count request
  let per_span_bytes := payload_size / max total_spans 1
  request.resource_spans.flatMap (fun rs =>
    rs.scope_spans.flatMap (fun ss =>
      ss.spans.map
        (build_span_row org_id project_id rs.resource_attributes per_span_bytes)))

/-! ## ingest_service.py — ingestion orchestration -/

/-- A cell value in the column-oriented batch insert. -/
inductive Value where
  | str : String → Value
  | int : Int → Value
  | rat : Rat → Value
  | attrs : List (String × String) → Value
deriving Repr, DecidableEq

/-- `SPANS_COLUMNS`: the fixed column order of the batch insert. -/
def SPANS_COLUMNS : List String :=
  ["org_id", "project_id", "trace_id", "span_id", "parent_span_id",
   "span_name", "span_type", "service_name", "framework", "environment",
   "kind", "start_time", "end_time", "duration_ms", "status_code",
   "status_message", "http_method", "http_route", "http_status_code",
   "request_body", "response_body", "request_headers", "response_headers",
   "attributes", "row_size_bytes"]

/-- The dictionary view of a span row (`span[col]`); columns outside
`SPANS_COLUMNS` do not occur. -/
def span_field (s : SpanRow) : String → Value
  | "org_id" => .str s.org_id
  | "project_id" => .str s.project_id
  | "trace_id" => .str s.trace_id
  | "span_id" => .str s.span_id
  | "parent_span_id" => .str s.parent_span_id
  | "span_name" => .str s.span_name
  | "span_type" => .str s.span_type
  | "service_name" => .str s.service_name
  | "framework" => .str s.framework
  | "environment" => .str s.environment
  | "kind" => .str s.kind
  | "start_time" => .rat s.start_time
  | "end_time" => .rat s.end_time
  | "duration_ms" => .rat s.duration_ms
  | "status_code" => .str s.status_code
  | "status_message" => .str s.status_message
  | "http_method" => .str s.http_method
  | "http_route" => .str s.http_route
  | "http_status_code" => .int s.http_status_code
  | "request_body" => .str s.request_body
  | "response_body" => .str s.response_body
  | "request_headers" => .str s.request_headers
  | "response_headers" => .str s.response_headers
  | "attributes" => .attrs s.attributes
  | "row_size_bytes" => .int s.row_size_bytes
  | _ => .str ""

/-- One batched `client.insert` call. -/
structure InsertCall where
  table : String
  rows : List (List Value)
  column_names : List String
deriving Repr, DecidableEq

/-- A lightweight span summary for SSE broadcast
(`schemas/stream.py: build_span_summary`), excluding bodies, headers and
attributes. -/
structure SpanSummary where
  trace_id : String
  span_id : String
  parent_span_id : String
  span_name : String
  span_type : String
  service_name : String
  kind : String
  start_time : Rat
  duration_ms : Rat
  status_code : String
  http_method : String
  http_route : String
  http_status_code : Int
deriving Repr, DecidableEq

/-- Model of `build_span_summary`. -/
def build_span_summary (s : SpanRow) : SpanSummary :=
  { trace_id := s.trace_id
    span_id := s.span_id
    parent_span_id := s.parent_span_id
    span_name := s.span_name
    span_type := s.span_type
    service_name := s.service_name
    kind := s.kind
    start_time := s.start_time
    duration_ms := s.duration_ms
    status_code := s.status_code
    http_method := s.http_method
    http_route := s.http_route
    http_status_code := s.http_status_code }

/-- The side effects performed by one `ingest_traces` call: the batched
inserts issued, the spawned counter-update tasks
`(project_id, error_count, request_count)`, and the SSE events
broadcast. -/
structure IngestEffects where
  inserts : List InsertCall
  counter_updates : List (String × Nat × Nat)
  broadcasts : List (String × SpanSummary)
deriving Repr, DecidableEq

/-- Model of `ingest_traces` on an already-parsed request (the protobuf
decode is the model boundary; a parse failure raises before any of the
effects below).  With zero extracted spans it returns 0 with no side
effects; otherwise it performs exactly one batched insert of all rows in
`SPANS_COLUMNS` order, spawns one counter-update task, broadcasts a summary
per span when the project has live subscribers, and returns the span
count. -/
def ingest_traces (request : ExportTraceServiceRequest)
    (payload_size : Nat) (org_id project_id : String) (cm : CMState) :
    Nat × IngestEffects :=
  let spans := extract_spans request org_id project_id payload_size
  if spans.isEmpty then
    (0, { inserts := [], counter_updates := [], broadcasts := [] })
  else
    let rows := spans.map (fun span => SPANS_COLUMNS.map (span_field span))
    let insert : InsertCall :=
      { table := "spans", rows := rows, column_names := SPANS_COLUMNS }
    let error_count := (spans.filter (fun s => s.status_code == "ERROR")).length
    let request_count := spans.length
    let broadcasts :=
      if connection_count cm project_id > 0 then
        spans.map (fun s => (project_id, build_span_summary s))
      else []
    (spans.length,
      { inserts := [insert]
        counter_updates := [(project_id, error_count, request_count)]
        broadcasts := broadcasts })

/-! ## Theorems -/

/-- C1: high_error_rate evaluation triggers exactly when the windowed error
rate strictly exceeds the threshold — a rate equal to the threshold never
triggers — and reports the rate as `metric_value` and the given threshold
as `threshold_value`, for every project, threshold and duration window. -/
theorem evaluate_high_error_rate_strict_gt (r : Redis) (project_id : String)
    (threshold : Rat) (duration_seconds : Nat) :
    ((evaluate_high_error_rate r project_id threshold duration_seconds).is_triggered = true ↔
      get_error_rate r project_id (max 1 (duration_seconds / 60)) > threshold) ∧
    (evaluate_high_error_rate r project_id threshold duration_seconds).metric_value =
      get_error_rate r project_id (max 1 (duration_seconds / 60)) ∧
    (evaluate_high_error_rate r project_id threshold duration_seconds).threshold_value =
      threshold := by
  refine ⟨?_, rfl, rfl⟩
  simp [evaluate_high_error_rate]

/-- C8: every counter-store operation degrades gracefully when the cache
backend raises: increments are no-ops returning 0, count and rate reads
return 0, and the cooldown operations return false or 0, all without
propagating the exception or changing the cache state. -/
theorem alert_counters_degrade_on_backend_error (r : Redis)
    (h : r.ok = false) (project_id rule_id : String)
    (window_minutes : Nat) (ttl_seconds : Int) :
    increment_request_count r project_id = (0, r) ∧
    increment_error_count r project_id = (0, r) ∧
    get_error_count r project_id window_minutes = 0 ∧
    get_request_count r project_id window_minutes = 0 ∧
    get_error_rate r project_id window_minutes = 0 ∧
    is_in_cooldown r rule_id = false ∧
    set_cooldown r rule_id ttl_seconds = (false, r) ∧
    clear_cooldown r rule_id = (false, r) ∧
    get_cooldown_remaining r rule_id = 0 := by
  simp [increment_request_count, increment_error_count, get_error_count,
    get_request_count, get_error_rate, is_in_cooldown, set_cooldown,
    clear_cooldown, get_cooldown_remaining, h]

/-- Witness for C8 at a concrete failing cache. -/
theorem alert_counters_degrade_on_backend_error_witness :
    (Redis.mk false [] [] 0).ok = false ∧
    (increment_request_count ⟨false, [], [], 0⟩ "p" = (0, ⟨false, [], [], 0⟩) ∧
     increment_error_count ⟨false, [], [], 0⟩ "p" = (0, ⟨false, [], [], 0⟩) ∧
     get_error_count ⟨false, [], [], 0⟩ "p" 5 = 0 ∧
     get_request_count ⟨false, [], [], 0⟩ "p" 5 = 0 ∧
     get_error_rate ⟨false, [], [], 0⟩ "p" 5 = 0 ∧
     is_in_cooldown ⟨false, [], [], 0⟩ "rule-1" = false ∧
     set_cooldown ⟨false, [], [], 0⟩ "rule-1" 300 = (false, ⟨false, [], [], 0⟩) ∧
     clear_cooldown ⟨false, [], [], 0⟩ "rule-1" = (false, ⟨false, [], [], 0⟩) ∧
     get_cooldown_remaining ⟨false, [], [], 0⟩ "rule-1" = 0) :=
  ⟨rfl, alert_counters_degrade_on_backend_error ⟨false, [], [], 0⟩ rfl "p" "rule-1" 5 300⟩

/-- C3 counterexample: `latency_spike` with a zero previous-hour baseline
and threshold 0 computes a 0% change but still triggers (the comparison is
`0 >= 0`), refuting the claim that a zero baseline never triggers for every
threshold value. -/
theorem latency_spike_zero_baseline_counterexample :
    (evaluate_latency_spike (.row (some 5, some 0)) 0).metric_value = 0 ∧
    (evaluate_latency_spike (.row (some 5, some 0)) 0).is_triggered = true := by
  constructor <;> rfl

/-- C3 (amended): with a zero previous-period baseline the computed
percentage change is 0% for all three percentage presets;
`traffic_surge` and `traffic_drop` are then never triggered, for every
threshold and current value, while `latency_spike` is not triggered for
every positive threshold (with threshold ≤ 0 it does trigger, since the
comparison is `0 >= threshold`). -/
theorem percentage_presets_zero_baseline (cur : Option Rat)
    (cvol : Option Int) (threshold : Rat)
    (prevP95 : Option Rat) (prevVol : Option Int)
    (hb : prevP95.getD 0 = 0) (hv : prevVol.getD 0 = 0) :
    (evaluate_latency_spike (.row (cur, prevP95)) threshold).metric_value = 0 ∧
    (0 < threshold →
      (evaluate_latency_spike (.row (cur, prevP95)) threshold).is_triggered = false) ∧
    (evaluate_traffic_surge (.row (cvol, prevVol)) threshold).metric_value = 0 ∧
    (evaluate_traffic_surge (.row (cvol, prevVol)) threshold).is_triggered = false ∧
    (evaluate_traffic_drop (.row (cvol, prevVol)) threshold).metric_value = 0 ∧
    (evaluate_traffic_drop (.row (cvol, prevVol)) threshold).is_triggered = false := by
  refine ⟨?_, ?_, ?_, ?_, ?_, ?_⟩ <;>
    simp [evaluate_latency_spike, evaluate_traffic_surge, evaluate_traffic_drop,
      evaluate_volume_change, hb, hv]

/-- Witness for the amended C3 at concrete inputs. -/
theorem percentage_presets_zero_baseline_witness :
    ((some (0 : Rat)).getD 0 = 0 ∧ (some (0 : Int)).getD 0 = 0) ∧
    ((evaluate_latency_spike (.row (some 42, some 0)) 50).metric_value = 0 ∧
     (0 < (50 : Rat) →
       (evaluate_latency_spike (.row (some 42, some 0)) 50).is_triggered = false) ∧
     (evaluate_traffic_surge (.row (some 40, some 0)) 50).metric_value = 0 ∧
     (evaluate_traffic_surge (.row (some 40, some 0)) 50).is_triggered = false ∧
     (evaluate_traffic_drop (.row (some 40, some 0)) 50).metric_value = 0 ∧
     (evaluate_traffic_drop (.row (some 40, some 0)) 50).is_triggered = false) :=
  ⟨⟨rfl, rfl⟩,
   percentage_presets_zero_baseline (some 42) (some 40) 50 (some 0) (some 0) rfl rfl⟩

/-- The open-event query returns nothing when no row matches its filter. -/
theorem select_open_event_of_no_match (events : List AlertEvent) (rule_id : String)
    (h : events.filter (isOpenFor rule_id) = []) :
    select_open_event events rule_id = none := by
  unfold select_open_event
  rw [h]
  rfl

/-- C10: resolving a rule with no `triggered`/`active` event returns `None`,
changes no alert-event row, and leaves the cooldown token untouched. -/
theorem resolve_alert_no_open_event (redis : Redis) (db : Db)
    (rule : AlertRule) (now : Int)
    (h : db.events.filter (isOpenFor rule.id) = []) :
    resolve_alert redis db rule now = (none, db, redis) := by
  unfold resolve_alert
  rw [select_open_event_of_no_match db.events rule.id h]

/-- Witness for C10: a table holding only a resolved event for the rule. -/
theorem resolve_alert_no_open_event_witness :
    (Db.mk [{ id := 0, rule_id := "r1", org_id := "o", project_id := "p",
              triggered_at := 0, resolved_at := some 100, metric_value := 7,
              threshold_value := 5, status := "resolved", cooldown_until := none,
              notification_sent := true, rule_snapshot := none }] 1).events.filter
        (isOpenFor "r1") = [] ∧
    resolve_alert ⟨true, [], [], 0⟩
        ⟨[{ id := 0, rule_id := "r1", org_id := "o", project_id := "p",
            triggered_at := 0, resolved_at := some 100, metric_value := 7,
            threshold_value := 5, status := "resolved", cooldown_until := none,
            notification_sent := true, rule_snapshot := none }], 1⟩
        { id := "r1", org_id := "o", project_id := "p",
          preset_key := "high_error_rate", name := "High Error Rate",
          category := "availability", description := "",
          threshold_value := 5, duration_seconds := 300,
          comparison_operator := "gt", is_active := true, is_custom := false }
        200 =
      (none,
       ⟨[{ id := 0, rule_id := "r1", org_id := "o", project_id := "p",
           triggered_at := 0, resolved_at := some 100, metric_value := 7,
           threshold_value := 5, status := "resolved", cooldown_until := none,
           notification_sent := true, rule_snapshot := none }], 1⟩,
       ⟨true, [], [], 0⟩) :=
  ⟨by decide,
   resolve_alert_no_open_event ⟨true, [], [], 0⟩ _ _ 200 (by decide)⟩

/-- Looking up a key after transforming the value stored under that key in
every matching registry entry. -/
theorem lookup_map_update {α : Type} (cm : List (String × α)) (k : String)
    (t : α → α) :
    (cm.map (fun p => if p.1 == k then (p.1, t p.2) else p)).lookup k =
      (cm.lookup k).map t := by
  induction cm with
  | nil => rfl
  | cons hd tl ih =>
    obtain ⟨k1, v⟩ := hd
    cases hbe : (k1 == k) with
    | true =>
      have hk : k1 = k := eq_of_beq hbe
      subst hk
      rw [List.map_cons, if_pos hbe]
      simp [List.lookup, hbe]
    | false =>
      have h2 : (k == k1) = false := beq_false_of_ne (Ne.symm (ne_of_beq_false hbe))
      rw [List.map_cons, if_neg (by simp [hbe])]
      simpa [List.lookup, h2] using ih

/-- C5: broadcast never blocks and never raises (it is a total state
transformer); with no registered channel it is a no-op, and otherwise every
queue of the project is transformed by `put_nowait_or_drop`: a full queue is
left entirely unchanged (the new event is dropped for that subscriber only,
the oldest unconsumed event stays at the head), while every queue with
spare capacity receives the event at the tail. -/
theorem broadcast_never_blocks (cm : CMState) (project_id : String)
    (event : SseEvent) :
    (cm.lookup project_id = none → broadcast cm project_id event = cm) ∧
    ((broadcast cm project_id event).lookup project_id =
      (cm.lookup project_id).map (fun ch => ch.map (put_nowait_or_drop event))) ∧
    (∀ q : SseQueue, QUEUE_MAX_SIZE ≤ q.length →
      put_nowait_or_drop event q = q ∧ (put_nowait_or_drop event q).head? = q.head?) ∧
    (∀ q : SseQueue, q.length < QUEUE_MAX_SIZE →
      put_nowait_or_drop event q = q ++ [event]) := by
  refine ⟨?_, ?_, ?_, ?_⟩
  · intro h
    simp [broadcast, h]
  · cases hl : cm.lookup project_id with
    | none => simp [broadcast, hl]
    | some ch =>
      by_cases he : ch.isEmpty
      · have : ch = [] := List.isEmpty_iff.mp he
        subst this
        simp [broadcast, hl, he]
      · have hb : broadcast cm project_id event =
            cm.map (fun p =>
              if p.1 == project_id then (p.1, p.2.map (put_nowait_or_drop event))
              else p) := by
          simp [broadcast, hl, he]
        rw [hb, lookup_map_update cm project_id
          (fun c => c.map (put_nowait_or_drop event)), hl]
  · intro q h
    have hq : put_nowait_or_drop event q = q := by
      unfold put_nowait_or_drop
      rw [if_neg (Nat.not_lt.mpr h)]
    exact ⟨hq, by rw [hq]⟩
  · intro q h
    unfold put_nowait_or_drop
    rw [if_pos h]

/-- Witness for C5: one project with one full queue of 256 events and one
empty queue; and a project id with no subscribers. -/
theorem broadcast_never_blocks_witness :
    ((([("p1", [List.replicate 256 [("event", "span")], []])] : CMState).lookup "p2" = none →
        broadcast [("p1", [List.replicate 256 [("event", "span")], []])] "p2"
          [("event", "heartbeat")] =
          [("p1", [List.replicate 256 [("event", "span")], []])]) ∧
      ((broadcast [("p1", [List.replicate 256 [("event", "span")], []])] "p2"
          [("event", "heartbeat")]).lookup "p2" =
        ((([("p1", [List.replicate 256 [("event", "span")], []])] : CMState).lookup "p2").map
          (fun ch => ch.map (put_nowait_or_drop [("event", "heartbeat")])))) ∧
      (∀ q : SseQueue, QUEUE_MAX_SIZE ≤ q.length →
        put_nowait_or_drop [("event", "heartbeat")] q = q ∧
          (put_nowait_or_drop [("event", "heartbeat")] q).head? = q.head?) ∧
      (∀ q : SseQueue, q.length < QUEUE_MAX_SIZE →
        put_nowait_or_drop [("event", "heartbeat")] q = q ++ [[("event", "heartbeat")]])) :=
  broadcast_never_blocks [("p1", [List.replicate 256 [("event", "span")], []])] "p2"
    [("event", "heartbeat")]

/-- C7: each channel's dispatch function is invoked at most twice, a second
time exactly when the first attempt failed; the final result of a failed
first attempt is the retry's result marked `retried`; the gathered result
list is a per-channel function of that channel's own outcomes alone (email
first, then every configured slack/discord channel); and
`notification_sent` is set to true iff at least one channel's final result
succeeded. -/
theorem dispatch_alert_notification_retry_isolation (event : AlertEvent)
    (e1 e2 : DispatchResult) (channels : List ChannelDispatch) :
    (∀ first retry : DispatchResult,
      dispatch_attempt_count first ≤ 2 ∧
      (dispatch_attempt_count first = 2 ↔ first.success = false) ∧
      (first.success = true → dispatch_with_retry first retry = first) ∧
      (first.success = false →
        dispatch_with_retry first retry = { retry with retried := true })) ∧
    (dispatch_alert_notification event (e1, e2) channels).1 =
      dispatch_with_retry e1 e2 ::
        channels.filterMap (fun c =>
          if c.channel_type == "slack" || c.channel_type == "discord" then
            some (dispatch_with_retry c.first c.retry)
          else none) ∧
    ((dispatch_alert_notification event (e1, e2) channels).2.notification_sent = true ↔
      ∃ r ∈ (dispatch_alert_notification event (e1, e2) channels).1,
        r.success = true) := by
  refine ⟨?_, rfl, ?_⟩
  · intro first retry
    cases hs : first.success <;>
      simp [dispatch_attempt_count, dispatch_with_retry, hs]
  · simp only [dispatch_alert_notification]
    rw [decide_eq_true_iff]
    rw [gt_iff_lt, List.length_pos_iff_exists_mem]
    constructor
    · rintro ⟨r, hr⟩
      rw [List.mem_filter] at hr
      exact ⟨r, hr.1, hr.2⟩
    · rintro ⟨r, hr, hs⟩
      exact ⟨r, List.mem_filter.mpr ⟨hr, hs⟩⟩

/-- Status and id of an event are related to its starting values across a run
of in-cooldown updates: the id never changes, nor does the rule id. -/
theorem finalOpenEvent_id (ev : AlertEvent) (calls : List (EvaluationResult × Int)) :
    (finalOpenEvent ev calls).id = ev.id ∧
    (finalOpenEvent ev calls).rule_id = ev.rule_id := by
  induction calls generalizing ev with
  | nil => exact ⟨rfl, rfl⟩
  | cons c rest ih =>
    unfold finalOpenEvent
    rw [List.foldl_cons]
    exact ih _

/-- The open-event query on a table whose prefix has no open row for the
rule and that ends with one open row returns that row. -/
theorem select_open_event_single (pre : List AlertEvent) (ev : AlertEvent)
    (rid : String) (hopen : pre.filter (isOpenFor rid) = [])
    (hev : isOpenFor rid ev = true) :
    select_open_event (pre ++ [ev]) rid = some ev := by
  unfold select_open_event
  rw [List.filter_append, hopen, List.nil_append]
  simp [List.filter, hev]

/-- An in-place row update touches only the row with the matching primary
key. -/
theorem updateEvent_append (pre : List AlertEvent) (ev updated : AlertEvent)
    (hid : updated.id = ev.id)
    (hids : ∀ e ∈ pre, e.id ≠ ev.id) :
    updateEvent (pre ++ [ev]) updated = pre ++ [updated] := by
  unfold updateEvent
  rw [List.map_append]
  congr 1
  · have h : ∀ e ∈ pre, (if e.id == updated.id then updated else e) = e := by
      intro e he
      rw [if_neg]
      rw [hid]
      simp [hids e he]
    rw [List.map_congr_left h]
    simp
  · rw [List.map_cons, if_pos (by simp [hid]), List.map_nil]

/-- While a rule stays in cooldown, every further `fire_alert` call leaves
the table with the same single open row — updated in place — and the cache
untouched. -/
theorem fire_many_in_cooldown (rule : AlertRule) (pre : List AlertEvent)
    (n : Nat) (redis : Redis) (ev : AlertEvent)
    (calls : List (EvaluationResult × Int))
    (hcool : is_in_cooldown redis rule.id = true)
    (hids : ∀ e ∈ pre, e.id ≠ ev.id)
    (hopen : pre.filter (isOpenFor rule.id) = [])
    (hev : isOpenFor rule.id ev = true) :
    fire_many redis ⟨pre ++ [ev], n⟩ rule calls =
      (⟨pre ++ [finalOpenEvent ev calls], n⟩, redis) := by
  induction calls generalizing ev with
  | nil => simp [fire_many, finalOpenEvent]
  | cons c rest ih =>
    have hsel : select_open_event (pre ++ [ev]) rule.id = some ev :=
      select_open_event_single pre ev rule.id hopen hev
    have hupd : updateEvent (pre ++ [ev])
        { ev with status := "active", metric_value := c.1.metric_value } =
        pre ++ [{ ev with status := "active", metric_value := c.1.metric_value }] :=
      updateEvent_append pre ev _ rfl hids
    have hstep : fire_alert redis ⟨pre ++ [ev], n⟩ rule c.1 c.2 =
        (some { ev with status := "active", metric_value := c.1.metric_value },
         ⟨pre ++ [{ ev with status := "active", metric_value := c.1.metric_value }], n⟩,
         redis) := by
      unfold fire_alert
      rw [if_pos hcool, hsel]
      dsimp only
      rw [hupd]
    have hopen2 : isOpenFor rule.id
        { ev with status := "active", metric_value := c.1.metric_value } = true := by
      unfold isOpenFor at hev ⊢
      rw [Bool.and_eq_true] at hev
      rw [Bool.and_eq_true]
      exact ⟨hev.1, by rfl⟩
    have hchain : fire_many redis ⟨pre ++ [ev], n⟩ rule (c :: rest) =
        fire_many redis
          ⟨pre ++ [{ ev with status := "active", metric_value := c.1.metric_value }], n⟩
          rule rest := by
      unfold fire_many
      rw [List.foldl_cons]
      rw [hstep]
    rw [hchain,
      ih { ev with status := "active", metric_value := c.1.metric_value } hids hopen2]
    rfl

/-- C2: firing a rule once outside cooldown inserts exactly one event row
with status `triggered` and sets the cooldown; any number of further
`fire_alert` calls while the cooldown is active add no row — the table
still has exactly one open event for the rule, whose status is now
`active` and whose metric value is the most recent evaluation's. -/
theorem fire_alert_cooldown_idempotence
    (redis : Redis) (db : Db) (rule : AlertRule) (res0 : EvaluationResult)
    (now : Int) (calls : List (EvaluationResult × Int))
    (lastCall : EvaluationResult × Int)
    (hok : redis.ok = true)
    (hnc : is_in_cooldown redis rule.id = false)
    (hopen : db.events.filter (isOpenFor rule.id) = [])
    (hwf : ∀ e ∈ db.events, e.id < db.nextId)
    (htrig0 : res0.is_triggered = true)
    (htrig : ∀ p ∈ calls ++ [lastCall], (p.1).is_triggered = true) :
    ∃ ev0 : AlertEvent,
      fire_alert redis db rule res0 now =
        (some ev0, ⟨db.events ++ [ev0], db.nextId + 1⟩,
          (set_cooldown redis rule.id DEFAULT_COOLDOWN_SECONDS).2) ∧
      ev0.status = "triggered" ∧
      ev0.metric_value = res0.metric_value ∧
      is_in_cooldown (set_cooldown redis rule.id DEFAULT_COOLDOWN_SECONDS).2
        rule.id = true ∧
      fire_many (set_cooldown redis rule.id DEFAULT_COOLDOWN_SECONDS).2
          ⟨db.events ++ [ev0], db.nextId + 1⟩ rule (calls ++ [lastCall]) =
        (⟨db.events ++ [finalOpenEvent ev0 (calls ++ [lastCall])], db.nextId + 1⟩,
          (set_cooldown redis rule.id DEFAULT_COOLDOWN_SECONDS).2) ∧
      (db.events ++ [finalOpenEvent ev0 (calls ++ [lastCall])]).length =
        db.events.length + 1 ∧
      (db.events ++ [finalOpenEvent ev0 (calls ++ [lastCall])]).filter
          (isOpenFor rule.id) = [finalOpenEvent ev0 (calls ++ [lastCall])] ∧
      select_open_event (db.events ++ [finalOpenEvent ev0 (calls ++ [lastCall])])
          rule.id = some (finalOpenEvent ev0 (calls ++ [lastCall])) ∧
      (finalOpenEvent ev0 (calls ++ [lastCall])).status = "active" ∧
      (finalOpenEvent ev0 (calls ++ [lastCall])).metric_value =
        lastCall.1.metric_value := by
  refine ⟨{ id := db.nextId, rule_id := rule.id, org_id := rule.org_id,
            project_id := rule.project_id, triggered_at := now,
            resolved_at := none, metric_value := res0.metric_value,
            threshold_value := res0.threshold_value, status := "triggered",
            cooldown_until := some (now + DEFAULT_COOLDOWN_SECONDS),
            notification_sent := false, rule_snapshot := none },
          ?_, rfl, rfl, ?_, ?_, ?_, ?_, ?_, ?_, ?_⟩
  case _ =>
    unfold fire_alert
    rw [if_neg (by rw [hnc]; exact Bool.false_ne_true)]
  case _ =>
    simp [is_in_cooldown, set_cooldown, kvSet, hok, List.lookup]
  case _ =>
    exact fire_many_in_cooldown rule db.events (db.nextId + 1) _ _
      (calls ++ [lastCall])
      (by simp [is_in_cooldown, set_cooldown, kvSet, hok, List.lookup])
      (fun e he => Nat.ne_of_lt (hwf e he))
      hopen
      (by simp [isOpenFor])
  case _ =>
    simp
  case _ =>
    rw [List.filter_append, hopen, List.nil_append]
    have h2 : (finalOpenEvent
        { id := db.nextId, rule_id := rule.id, org_id := rule.org_id,
          project_id := rule.project_id, triggered_at := now,
          resolved_at := none, metric_value := res0.metric_value,
          threshold_value := res0.threshold_value, status := "triggered",
          cooldown_until := some (now + DEFAULT_COOLDOWN_SECONDS),
          notification_sent := false, rule_snapshot := none }
        (calls ++ [lastCall])).status = "active" := by
      unfold finalOpenEvent
      rw [List.foldl_append]
      rfl
    have hevF : isOpenFor rule.id (finalOpenEvent
        { id := db.nextId, rule_id := rule.id, org_id := rule.org_id,
          project_id := rule.project_id, triggered_at := now,
          resolved_at := none, metric_value := res0.metric_value,
          threshold_value := res0.threshold_value, status := "triggered",
          cooldown_until := some (now + DEFAULT_COOLDOWN_SECONDS),
          notification_sent := false, rule_snapshot := none }
        (calls ++ [lastCall])) = true := by
      unfold isOpenFor
      rw [(finalOpenEvent_id _ _).2, h2]
      simp
    simp [List.filter, hevF]
  case _ =>
    apply select_open_event_single db.events _ rule.id hopen
    unfold isOpenFor
    have h2 : (finalOpenEvent
        { id := db.nextId, rule_id := rule.id, org_id := rule.org_id,
          project_id := rule.project_id, triggered_at := now,
          resolved_at := none, metric_value := res0.metric_value,
          threshold_value := res0.threshold_value, status := "triggered",
          cooldown_until := some (now + DEFAULT_COOLDOWN_SECONDS),
          notification_sent := false, rule_snapshot := none }
        (calls ++ [lastCall])).status = "active" := by
      unfold finalOpenEvent
      rw [List.foldl_append]
      rfl
    rw [(finalOpenEvent_id _ _).2, h2]
    simp
  case _ =>
    unfold finalOpenEvent
    rw [List.foldl_append]
    rfl
  case _ =>
    unfold finalOpenEvent
    rw [List.foldl_append]
    rfl
/-- A concrete alert rule used by witness instantiations. -/
def ruleW : AlertRule :=
  ⟨"rule-1", "org-1", "proj-1", "high_error_rate", "High Error Rate",
   "availability", "", 5, 300, "gt", true, false⟩

/-- Witness for C2: one fire outside cooldown followed by one in-cooldown
re-fire with a larger metric value. -/
theorem fire_alert_cooldown_idempotence_witness :
    (Redis.mk true [] [] 0).ok = true ∧
    is_in_cooldown (Redis.mk true [] [] 0) ruleW.id = false ∧
    (∃ ev0 : AlertEvent,
      fire_alert (Redis.mk true [] [] 0) (Db.mk [] 0) ruleW
          (EvaluationResult.mk true 10 5) 0 =
        (some ev0, ⟨(Db.mk [] 0).events ++ [ev0], (Db.mk [] 0).nextId + 1⟩,
          (set_cooldown (Redis.mk true [] [] 0) ruleW.id
            DEFAULT_COOLDOWN_SECONDS).2) ∧
      ev0.status = "triggered" ∧
      ev0.metric_value = (EvaluationResult.mk true 10 5).metric_value ∧
      is_in_cooldown (set_cooldown (Redis.mk true [] [] 0) ruleW.id
          DEFAULT_COOLDOWN_SECONDS).2 ruleW.id = true ∧
      fire_many (set_cooldown (Redis.mk true [] [] 0) ruleW.id
            DEFAULT_COOLDOWN_SECONDS).2
          ⟨(Db.mk [] 0).events ++ [ev0], (Db.mk [] 0).nextId + 1⟩ ruleW
          ([] ++ [(EvaluationResult.mk true 20 5, (60 : Int))]) =
        (⟨(Db.mk [] 0).events ++
            [finalOpenEvent ev0 ([] ++ [(EvaluationResult.mk true 20 5, (60 : Int))])],
          (Db.mk [] 0).nextId + 1⟩,
          (set_cooldown (Redis.mk true [] [] 0) ruleW.id
            DEFAULT_COOLDOWN_SECONDS).2) ∧
      ((Db.mk [] 0).events ++
        [finalOpenEvent ev0 ([] ++ [(EvaluationResult.mk true 20 5, (60 : Int))])]).length =
        (Db.mk [] 0).events.length + 1 ∧
      ((Db.mk [] 0).events ++
        [finalOpenEvent ev0 ([] ++ [(EvaluationResult.mk true 20 5, (60 : Int))])]).filter
          (isOpenFor ruleW.id) =
        [finalOpenEvent ev0 ([] ++ [(EvaluationResult.mk true 20 5, (60 : Int))])] ∧
      select_open_event
          ((Db.mk [] 0).events ++
            [finalOpenEvent ev0 ([] ++ [(EvaluationResult.mk true 20 5, (60 : Int))])])
          ruleW.id =
        some (finalOpenEvent ev0 ([] ++ [(EvaluationResult.mk true 20 5, (60 : Int))])) ∧
      (finalOpenEvent ev0 ([] ++ [(EvaluationResult.mk true 20 5, (60 : Int))])).status =
        "active" ∧
      (finalOpenEvent ev0 ([] ++ [(EvaluationResult.mk true 20 5, (60 : Int))])).metric_value =
        (EvaluationResult.mk true 20 5, (60 : Int)).1.metric_value) :=
  ⟨rfl, rfl,
   fire_alert_cooldown_idempotence (Redis.mk true [] [] 0) (Db.mk [] 0) ruleW
     (EvaluationResult.mk true 10 5) 0 [] (EvaluationResult.mk true 20 5, 60)
     rfl rfl rfl (by simp) rfl
     (by
       intro p hp
       rw [List.nil_append, List.mem_singleton] at hp
       subst hp
       rfl)⟩

/-- C6: an `AlertEvent` created by `fire_alert` (the evaluation/scheduler
path) does NOT carry a rule snapshot — its `rule_snapshot` is NULL — while
the management-path `create_alert_event` does populate the snapshot from
the rule's configuration.  This contradicts the claim that `fire_alert`
always snapshots the rule. -/
theorem fire_alert_event_lacks_rule_snapshot :
    ((fire_alert ⟨true, [], [], 0⟩ ⟨[], 0⟩ ruleW ⟨true, 10, 5⟩ 0).1.map
      (fun e => e.rule_snapshot)) = some none ∧
    (create_alert_event ⟨[], 0⟩ ruleW 10 0).1.rule_snapshot =
      some (build_rule_snapshot ruleW) :=
  ⟨rfl, rfl⟩


/-- The number of rows produced by `extract_spans` is the `total_spans`
count of the request. -/
theorem extract_spans_length (request : ExportTraceServiceRequest)
    (org_id project_id : String) (payload_size : Nat) :
    (extract_spans request org_id project_id payload_size).length =
      total_span_count request := by
  unfold extract_spans total_span_count
  rw [List.length_flatMap]
  refine congrArg List.sum (List.map_congr_left ?_)
  intro rs _
  show (rs.scope_spans.flatMap _).length = _
  rw [List.length_flatMap]
  refine congrArg List.sum (List.map_congr_left ?_)
  intro ss _
  show (List.map _ ss.spans).length = ss.spans.length
  rw [List.length_map]

/-- Every row of a batch carries the same per-span byte share
`payload_size // max(total_spans, 1)`. -/
theorem extract_spans_row_size (request : ExportTraceServiceRequest)
    (org_id project_id : String) (payload_size : Nat) :
    ∀ row ∈ extract_spans request org_id project_id payload_size,
      row.row_size_bytes = payload_size / max (total_span_count request) 1 := by
  intro row hrow
  unfold extract_spans at hrow
  rw [List.mem_flatMap] at hrow
  obtain ⟨rs, hrs, hrow⟩ := hrow
  rw [List.mem_flatMap] at hrow
  obtain ⟨ss, hss, hrow⟩ := hrow
  rw [List.mem_map] at hrow
  obtain ⟨sp, hsp, hrow⟩ := hrow
  subst hrow
  rfl

/-- Summing a function that is constant on a list. -/
theorem sum_map_const {α : Type} (l : List α) (f : α → Nat) (c : Nat)
    (h : ∀ x ∈ l, f x = c) : (l.map f).sum = l.length * c := by
  induction l with
  | nil => simp
  | cons x xs ih =>
    rw [List.map_cons, List.sum_cons, h x (List.mem_cons_self x xs),
      List.length_cons, ih (fun y hy => h y (List.mem_cons_of_mem x hy))]
    ring

/-- C9: for a payload of `P` bytes decoding to `N ≥ 1` spans, every row's
`row_size_bytes` equals the integer division `P / N`, and their sum,
`N * (P / N)`, never exceeds `P` (the truncated remainder is lost, never
exceeded). -/
theorem extract_spans_row_size_sum (request : ExportTraceServiceRequest)
    (org_id project_id : String) (payload_size : Nat)
    (h : 1 ≤ total_span_count request) :
    (∀ row ∈ extract_spans request org_id project_id payload_size,
      row.row_size_bytes = payload_size / total_span_count request) ∧
    ((extract_spans request org_id project_id payload_size).map
      (fun r => r.row_size_bytes)).sum =
      total_span_count request * (payload_size / total_span_count request) ∧
    total_span_count request * (payload_size / total_span_count request) ≤
      payload_size := by
  have hmax : max (total_span_count request) 1 = total_span_count request :=
    Nat.max_eq_left h
  have hrow : ∀ row ∈ extract_spans request org_id project_id payload_size,
      row.row_size_bytes = payload_size / total_span_count request := by
    intro row hr
    rw [extract_spans_row_size request org_id project_id payload_size row hr, hmax]
  refine ⟨hrow, ?_, ?_⟩
  · rw [sum_map_const _ _ _ hrow, extract_spans_length]
  · rw [Nat.mul_comm]
    exact Nat.div_mul_le_self payload_size (total_span_count request)

/-- A concrete span used by witness instantiations. -/
def spanW : OtlpSpan :=
  ⟨"aabbcc", "112233", "", "GET /users", 2, 1000000000, 2000000000,
   ⟨2, "boom"⟩, [("http.method", "GET")], []⟩

/-- A concrete two-span request used by witness instantiations. -/
def requestW : ExportTraceServiceRequest :=
  ⟨[⟨[("service.name", "svc")],
     [⟨[spanW, { spanW with span_id := "445566", status := ⟨1, ""⟩ }]⟩]⟩]⟩

/-- Witness for C9: a 7-byte payload with two spans gives each row 3 bytes
and a batch total of 6 ≤ 7. -/
theorem extract_spans_row_size_sum_witness :
    1 ≤ total_span_count requestW ∧
    ((∀ row ∈ extract_spans requestW "org" "proj" 7,
       row.row_size_bytes = 7 / total_span_count requestW) ∧
     ((extract_spans requestW "org" "proj" 7).map
       (fun r => r.row_size_bytes)).sum =
       total_span_count requestW * (7 / total_span_count requestW) ∧
     total_span_count requestW * (7 / total_span_count requestW) ≤ 7) :=
  ⟨by decide, extract_spans_row_size_sum requestW "org" "proj" 7 (by decide)⟩

/-- C4: with `N ≥ 1` decoded spans, `ingest_traces` returns `N` and issues
exactly one batched insert of exactly `N` rows into the `spans` table, each
row laid out in the fixed `SPANS_COLUMNS` order; with zero decoded spans it
returns 0 and performs no insert, no counter update, and no broadcast. -/
theorem ingest_traces_spec (request : ExportTraceServiceRequest)
    (payload_size : Nat) (org_id project_id : String) (cm : CMState) :
    (1 ≤ (extract_spans request org_id project_id payload_size).length →
      (ingest_traces request payload_size org_id project_id cm).1 =
        (extract_spans request org_id project_id payload_size).length ∧
      ∃ ins : InsertCall,
        (ingest_traces request payload_size org_id project_id cm).2.inserts = [ins] ∧
        ins.table = "spans" ∧
        ins.column_names = SPANS_COLUMNS ∧
        ins.rows.length = (extract_spans request org_id project_id payload_size).length ∧
        ins.rows = (extract_spans request org_id project_id payload_size).map
          (fun s => SPANS_COLUMNS.map (span_field s))) ∧
    ((extract_spans request org_id project_id payload_size).length = 0 →
      ingest_traces request payload_size org_id project_id cm =
        (0, { inserts := [], counter_updates := [], broadcasts := [] })) := by
  constructor
  · intro h
    rcases hsp : extract_spans request org_id project_id payload_size with _ | ⟨s, rest⟩
    · rw [hsp] at h
      simp at h
    · have key : ingest_traces request payload_size org_id project_id cm =
          ((s :: rest).length,
           IngestEffects.mk
             [InsertCall.mk "spans"
               ((s :: rest).map (fun sp => SPANS_COLUMNS.map (span_field sp)))
               SPANS_COLUMNS]
             [(project_id,
               ((s :: rest).filter (fun sp => sp.status_code == "ERROR")).length,
               (s :: rest).length)]
             (if connection_count cm project_id > 0 then
               (s :: rest).map (fun sp => (project_id, build_span_summary sp))
             else [])) := by
        unfold ingest_traces
        rw [hsp]
        rfl
      rw [key]
      refine ⟨rfl, ⟨_, rfl, rfl, rfl, ?_, rfl⟩⟩
      rw [List.length_map]
  · intro h
    have hnil : extract_spans request org_id project_id payload_size = [] :=
      List.eq_nil_of_length_eq_zero h
    unfold ingest_traces
    rw [hnil]
    rfl

/-- Witness for C4 at a concrete two-span payload and an empty connection
registry. -/
theorem ingest_traces_spec_witness :
    (ingest_traces requestW 7 "org" "proj" []).1 =
      (extract_spans requestW "org" "proj" 7).length ∧
    (ingest_traces requestW 7 "org" "proj" []).2.inserts.length = 1 :=
  have h := ingest_traces_spec requestW 7 "org" "proj" []
  have h1 := h.1 (by decide)
  ⟨h1.1, by
    rcases h1.2 with ⟨ins, hins, _⟩
    rw [hins]
    rfl⟩


/-- A concrete alert event used by witness instantiations. -/
def eventW : AlertEvent :=
  ⟨0, "rule-1", "org-1", "proj-1", 0, none, 10, 5, "triggered",
   some 300, false, none⟩

/-- Witness for C7: email fails once and succeeds on retry, so
`notification_sent` ends up true. -/
theorem dispatch_alert_notification_retry_isolation_witness :
    (dispatch_alert_notification eventW
      (DispatchResult.mk "email" false (some "timeout") false,
       DispatchResult.mk "email" true none false)
      [ChannelDispatch.mk "slack"
        (DispatchResult.mk "slack" false (some "404") false)
        (DispatchResult.mk "slack" false (some "404") false)]).2.notification_sent =
      true :=
  (dispatch_alert_notification_retry_isolation eventW
      (DispatchResult.mk "email" false (some "timeout") false)
      (DispatchResult.mk "email" true none false)
      [ChannelDispatch.mk "slack"
        (DispatchResult.mk "slack" false (some "404") false)
        (DispatchResult.mk "slack" false (some "404") false)]).2.2.mpr
    ⟨dispatch_with_retry (DispatchResult.mk "email" false (some "timeout") false)
        (DispatchResult.mk "email" true none false),
     List.mem_cons_self _ _, rfl⟩

end Tracely
